import Mathlib

/-!
Verification development for the jenkins-mcp repository: a shallow embedding
of the CSRF-crumb-aware HTTP access layer (crumb acquisition, authenticated
request execution with one refresh-and-retry, and build triggering) from
`src/jenkins_mcp/server.py` and `src/scripts/jenkins_api_fix.py`.

Python strings are embedded as `List Char`; HTTP exchanges are embedded as
oracles supplied to each operation (the response each network call would
produce), so every operation is a total Lean function whose exception
behaviour is made explicit with `Except`.
-/

/-! ## Python string primitives used by the source -/

/-- Does `hay` start with `needle`? (building block for Python's `in`). -/
def strStarts : List Char → List Char → Bool
  | [], _ => true
  | _ :: _, [] => false
  | a :: as, b :: bs => (a == b) && strStarts as bs

/-- Python substring test `needle in hay`. -/
def strHas (needle : List Char) : List Char → Bool
  | [] => needle.isEmpty
  | c :: rest => strStarts needle (c :: rest) || strHas needle rest

/-- Python `s.rstrip(sep)` for a single strip character: drop every trailing
occurrence of `sep`. -/
def pyRstrip (sep : Char) (s : List Char) : List Char :=
  ((s.reverse).dropWhile (fun c => c == sep)).reverse

/-- Python `s.split(sep)` for a one-character separator: always returns at
least one (possibly empty) segment. -/
def pySplit (sep : Char) : List Char → List (List Char)
  | [] => [[]]
  | c :: rest =>
    if c = sep then [] :: pySplit sep rest
    else
      match pySplit sep rest with
      | [] => [[c]]
      | h :: t => (c :: h) :: t

/-- Python `s.split(sep, 1)`: the part before the first `sep` and the part
after it (the whole string and `[]` when `sep` does not occur; the source
only uses it after checking that `sep` occurs). -/
def pySplitOnce (sep : Char) : List Char → List Char × List Char
  | [] => ([], [])
  | c :: rest =>
    if c = sep then ([], rest)
    else
      let r := pySplitOnce sep rest
      (c :: r.1, r.2)

/-- Python negative indexing `xs[-i]` (for `i ≥ 1`): `some` of the element
when `i ≤ len(xs)`, `none` standing for the `IndexError` raise. -/
def pyNegIdx (xs : List α) (i : Nat) : Option α :=
  xs.reverse.get? (i - 1)

/-- The whitespace characters Python's `int()` strips. -/
def isPySpace (c : Char) : Bool :=
  c == ' ' || c == '\t' || c == '\n' || c == '\r' || c == '\x0b' || c == '\x0c'

/-- Strip leading and trailing Python whitespace. -/
def stripPyWs (s : List Char) : List Char :=
  (((s.dropWhile isPySpace).reverse).dropWhile isPySpace).reverse

/-- Numeric value of a decimal digit character. -/
def digitVal (c : Char) : Nat := c.toNat - 48

/-- Tail of Python `int()` digit parsing: digits with single underscores
allowed between digits, accumulating the value. -/
def parseDigitsUAux (acc : Nat) : List Char → Option Nat
  | [] => some acc
  | c :: rest =>
    if c = '_' then
      match rest with
      | [] => none
      | d :: rest2 =>
        if d.isDigit then parseDigitsUAux (acc * 10 + digitVal d) rest2 else none
    else if c.isDigit then parseDigitsUAux (acc * 10 + digitVal c) rest
    else none

/-- Python `int()` digit-group parsing: nonempty, must start with a digit,
single underscores allowed only between digits. -/
def parseDigitsU : List Char → Option Nat
  | [] => none
  | c :: rest => if c.isDigit then parseDigitsUAux (digitVal c) rest else none

/-- Python `int(s)` on a decimal string: strips whitespace, allows one
leading sign, then a digit group; `none` stands for the `ValueError` raise. -/
def pyInt (s : List Char) : Option Int :=
  match stripPyWs s with
  | [] => none
  | c :: rest =>
    if c = '+' then (parseDigitsU rest).map (fun n => (n : Int))
    else if c = '-' then (parseDigitsU rest).map (fun n => -(n : Int))
    else (parseDigitsU (c :: rest)).map (fun n => (n : Int))

/-- The numeric value of a list of decimal digit characters. -/
def digitsToNat (ds : List Char) : Nat :=
  ds.foldl (fun a c => a * 10 + digitVal c) 0

deriving instance DecidableEq for Except

/-! ## Dynamic Python values (for the argument validation in trigger_build) -/

/-- The Python exception kinds the embedded code can raise. -/
inductive PyErr where
  | valueError
  | indexError
deriving DecidableEq

/-- A Python value as passed to the tool-facing trigger operation:
`job_name` and `parameters` arrive dynamically typed. -/
inductive PyVal where
  | vstr (s : List Char)
  | vint (n : Int)
  | vnone
  | vdict (entries : List (List Char × PyVal))

/-- Python truthiness of a value (`if parameters:`). -/
def pyTruthy : PyVal → Bool
  | PyVal.vstr s => !s.isEmpty
  | PyVal.vint n => n != 0
  | PyVal.vnone => false
  | PyVal.vdict d => !d.isEmpty

/-- `isinstance(v, str)`. -/
def is_str : PyVal → Bool
  | PyVal.vstr _ => true
  | _ => false

/-- `isinstance(v, dict)`. -/
def is_dict : PyVal → Bool
  | PyVal.vdict _ => true
  | _ => false

/-- `v is None`. -/
def is_vnone : PyVal → Bool
  | PyVal.vnone => true
  | _ => false

/-! ## HTTP oracles -/

/-- A Python dict of string keys and values (crumb data, session cookies),
embedded as an association list. -/
abbrev StrDict := List (List Char × List Char)

/-- Python truthiness of an `Optional[Dict[str, str]]`: `None` and the
empty dict are falsy. -/
def pyTruthyDict : Option StrDict → Bool
  | none => false
  | some d => !d.isEmpty

/-- An HTTP response as observed by the source: status code, body text and
the optional `Location` header. -/
structure HttpResp where
  status : Nat
  body : List Char
  location : Option (List Char)
deriving DecidableEq

/-- Outcome of one attempted HTTP request: a transport-level exception or a
response. -/
inductive ReqResult where
  | exn
  | ok (r : HttpResp)
deriving DecidableEq

/-- Outcome of the crumb-issuer GET in `get_jenkins_crumb`
(`src/jenkins_mcp/server.py`): a raised network exception, or a response
with status, body text and the cookies the exchange set on the session. -/
inductive NetResult where
  | exn
  | resp (status : Nat) (text : List Char) (cookies : StrDict)

/-! ## Crumb Provider: get_jenkins_crumb (src/jenkins_mcp/server.py, lines 20-53) -/

/-- `get_jenkins_crumb`: returns `(crumb_data, session_cookies)`.
Any exception, a non-200 status, or a body without `":"` gives
`(none, none)`; otherwise the body is split once on `":"` into the crumb
field name and value, and the session cookies are returned alongside.
Total by construction: the source wraps the whole body in
`try/except Exception` and returns `(None, None)` on failure. -/
def get_jenkins_crumb (net : NetResult) : Option StrDict × Option StrDict :=
  match net with
  | NetResult.exn => (none, none)
  | NetResult.resp status text cookies =>
    if status ≠ 200 then (none, none)
    else if !(text.contains ':') then (none, none)
    else
      let fv := pySplitOnce ':' text
      (some [(fv.1, fv.2)], some cookies)

/-! ## Session Context and lifespan (src/jenkins_mcp/server.py, lines 12-80) -/

/-- The per-session `JenkinsContext` (the simple `client` object is left to
the oracles; only the crumb state is data). -/
structure JenkinsContext where
  crumb_data : Option StrDict
  session_cookies : Option StrDict
deriving DecidableEq

/-- `jenkins_lifespan`: builds the session context. When `use_token` is
false it performs one crumb fetch (modelled by the `net` oracle); when
`use_token` is true it performs none. The second component counts the calls
made to the crumb-issuer endpoint. -/
def jenkins_lifespan (use_token : Bool) (net : NetResult) : JenkinsContext × Nat :=
  if !use_token then
    let r := get_jenkins_crumb net
    ({ crumb_data := r.1, session_cookies := r.2 }, 1)
  else
    ({ crumb_data := none, session_cookies := none }, 0)

/-! ## Queue-id extraction (server.py lines 163-172, jenkins_api_fix.py lines 221-230) -/

/-- The characters of the segment literal compared against. -/
def itemChars : List Char := "item".toList

/-- Queue-id extraction from a (truthy) `Location` header value:
`queue_parts = location.rstrip("/").split("/")`, then, when
`queue_parts` is truthy, `queue_parts[-2] == "item"` (an `IndexError`
when fewer than two segments exist) and `int(queue_parts[-1])` with
`ValueError` swallowed (`queue_id` stays `None`). -/
def extract_queue_id (location : List Char) : Except PyErr (Option Int) :=
  let queue_parts := pySplit '/' (pyRstrip '/' location)
  if queue_parts.isEmpty then Except.ok none
  else
    match pyNegIdx queue_parts 2 with
    | none => Except.error PyErr.indexError
    | some seg2 =>
      if seg2 = itemChars then
        match pyNegIdx queue_parts 1 with
        | none => Except.error PyErr.indexError
        | some seg1 =>
          match pyInt seg1 with
          | some n => Except.ok (some n)
          | none => Except.ok none
      else Except.ok none

/-- The `queue_id` computation around the extraction: starts at `None`,
runs the extraction only when the `Location` header is present and truthy
(nonempty). -/
def queueIdFromLocation (location : Option (List Char)) : Except PyErr (Option Int) :=
  match location with
  | none => Except.ok none
  | some l => if l.isEmpty then Except.ok none else extract_queue_id l

/-! ## Build Trigger: trigger_build (src/jenkins_mcp/server.py, lines 93-198) -/

/-- The fields of the job-info JSON the source reads. -/
structure JobInfo where
  url : List Char
  nextBuildNumber : Nat
deriving DecidableEq

/-- Network operations `trigger_build` can perform, in order:
`get_job_info`, the preferred-path POST (recording whether the
`buildWithParameters` endpoint was chosen), and the fallback
`client.build_job`. -/
inductive NetEvent where
  | jobLookup
  | post (withParams : Bool)
  | buildJob
deriving DecidableEq

/-- The `BuildTriggerResult` dictionary assembled by `trigger_build`. -/
structure BuildResult where
  status : List Char
  job_name : List Char
  queue_id : Option Int
  build_number : Nat
  job_url : List Char
  build_url : List Char
deriving DecidableEq

/-- Oracle for one `trigger_build` call: the outcome of `get_job_info`
(exception, falsy value, or job info), of the preferred-path POST, and of
the fallback `client.build_job` (exception or queue id). -/
structure TriggerEnv where
  get_job_info : Except Unit (Option JobInfo)
  postResp : ReqResult
  build_job : Except Unit Int

/-- Result of a `trigger_build` call: the returned dictionary or raised
`ValueError`, the trace of network operations performed, and the session
context as it stands after the call. -/
structure TriggerOut where
  result : Except PyErr BuildResult
  events : List NetEvent
  ctx : JenkinsContext

/-- Decimal rendering of the next build number (Python f-string). -/
def natChars (n : Nat) : List Char := (Nat.repr n).toList

/-- The result dictionary built at lines 174-181 and 189-196 of the
source. -/
def mk_build_result (jn : List Char) (queue_id : Option Int) (info : JobInfo) : BuildResult :=
  { status := "triggered".toList
    job_name := jn
    queue_id := queue_id
    build_number := info.nextBuildNumber
    job_url := info.url
    build_url := info.url ++ natChars info.nextBuildNumber ++ ['/'] }

/-- The fallback path (lines 186-196): `client.build_job`, whose raise is
wrapped by the outer handler into a `ValueError`, and whose return value
becomes `queue_id`. -/
def fallback_build (env : TriggerEnv) (cx : JenkinsContext) (jn : List Char)
    (info : JobInfo) (evs : List NetEvent) : TriggerOut :=
  match env.build_job with
  | Except.error _ =>
    { result := Except.error PyErr.valueError, events := evs ++ [NetEvent.buildJob], ctx := cx }
  | Except.ok qid =>
    { result := Except.ok (mk_build_result jn (some qid) info),
      events := evs ++ [NetEvent.buildJob], ctx := cx }

/-- `trigger_build` (the MCP tool, lines 93-198): argument validation,
job lookup, then the preferred crumb-carrying POST when both `crumb_data`
and `session_cookies` are truthy — any exception or non-(200, 201) status
on that path falls back to `client.build_job`. -/
def trigger_build (env : TriggerEnv) (cx : JenkinsContext)
    (job_name : PyVal) (parameters : PyVal) : TriggerOut :=
  match job_name with
  | PyVal.vstr jn =>
    if !is_vnone parameters && !is_dict parameters then
      { result := Except.error PyErr.valueError, events := [], ctx := cx }
    else
      match env.get_job_info with
      | Except.error _ =>
        { result := Except.error PyErr.valueError, events := [NetEvent.jobLookup], ctx := cx }
      | Except.ok none =>
        { result := Except.error PyErr.valueError, events := [NetEvent.jobLookup], ctx := cx }
      | Except.ok (some job_info) =>
        if pyTruthyDict cx.crumb_data && pyTruthyDict cx.session_cookies then
          match env.postResp with
          | ReqResult.exn =>
            fallback_build env cx jn job_info
              [NetEvent.jobLookup, NetEvent.post (pyTruthy parameters)]
          | ReqResult.ok r =>
            if ¬ (r.status = 200 ∨ r.status = 201) then
              fallback_build env cx jn job_info
                [NetEvent.jobLookup, NetEvent.post (pyTruthy parameters)]
            else
              match queueIdFromLocation r.location with
              | Except.error _ =>
                fallback_build env cx jn job_info
                  [NetEvent.jobLookup, NetEvent.post (pyTruthy parameters)]
              | Except.ok queue_id =>
                { result := Except.ok (mk_build_result jn queue_id job_info),
                  events := [NetEvent.jobLookup, NetEvent.post (pyTruthy parameters)],
                  ctx := cx }
        else
          fallback_build env cx jn job_info [NetEvent.jobLookup]
  | _ => { result := Except.error PyErr.valueError, events := [], ctx := cx }

/-! ## Authenticated Request Executor: make_jenkins_request
(src/scripts/jenkins_api_fix.py, lines 60-134) -/

/-- The crumb-rejection markers of line 111, compared case-sensitively by
Python's `in`. -/
def noValidCrumbChars : List Char := "No valid crumb".toList

/-- The second marker of line 111. -/
def invalidCrumbChars : List Char := "Invalid crumb".toList

/-- Line 111: `"No valid crumb" in response.text or "Invalid crumb" in
response.text`. -/
def crumbMarker (body : List Char) : Bool :=
  strHas noValidCrumbChars body || strHas invalidCrumbChars body

/-- `make_jenkins_request`: sends the request (the `send` oracle gives the
outcome of the `k`-th send; a raised transport exception is re-raised as
`Except.error`). On a 403 whose body carries a crumb-rejection marker, when
`retry_on_auth_failure` holds, it fetches a fresh crumb (the `fetch`
oracle, the outcome of `get_jenkins_crumb`); if that fetch succeeded it
retries the same request once with the new crumb and
`retry_on_auth_failure=False`, otherwise the 403 response is returned.
The second component records the crumb dict attached to each send. -/
def make_jenkins_request (send : Nat → ReqResult) (fetch : Option StrDict)
    (k : Nat) (crumb : Option StrDict) (retry_on_auth_failure : Bool) :
    Except Unit HttpResp × List (Option StrDict) :=
  match send k with
  | ReqResult.exn => (Except.error (), [crumb])
  | ReqResult.ok r =>
    if h : r.status = 403 ∧ retry_on_auth_failure = true ∧ crumbMarker r.body = true then
      match fetch with
      | some new_crumb =>
        let rest := make_jenkins_request send fetch (k + 1) (some new_crumb) false
        (rest.1, crumb :: rest.2)
      | none => (Except.ok r, [crumb])
    else (Except.ok r, [crumb])
termination_by (if retry_on_auth_failure then 1 else 0)
decreasing_by simp [h.2.1]

/-! ## Helper lemmas about the Python string primitives -/

theorem pySplit_ne_nil (sep : Char) (s : List Char) : pySplit sep s ≠ [] := by
  induction s with
  | nil => simp [pySplit]
  | cons c rest ih =>
    simp only [pySplit]
    split
    · simp
    · cases h : pySplit sep rest with
      | nil => exact absurd h ih
      | cons a t => simp

theorem pySplit_cons_ne (sep c : Char) (rest : List Char) (hc : c ≠ sep) :
    pySplit sep (c :: rest) =
      match pySplit sep rest with
      | [] => [[c]]
      | h :: t => (c :: h) :: t := by
  simp [pySplit, if_neg hc]

theorem pySplit_append_sep (sep : Char) (a b : List Char) :
    pySplit sep (a ++ sep :: b) = pySplit sep a ++ pySplit sep b := by
  induction a with
  | nil => simp [pySplit]
  | cons c rest ih =>
    by_cases hc : c = sep
    · subst hc
      simp [pySplit, ih]
    · rw [List.cons_append, pySplit_cons_ne sep c _ hc, pySplit_cons_ne sep c rest hc, ih]
      cases h : pySplit sep rest with
      | nil => exact absurd h (pySplit_ne_nil sep rest)
      | cons x t => simp [h]

theorem pySplit_no_sep (sep : Char) (a : List Char) (h : ∀ c ∈ a, c ≠ sep) :
    pySplit sep a = [a] := by
  induction a with
  | nil => simp [pySplit]
  | cons c rest ih =>
    have hc : c ≠ sep := h c (List.mem_cons_self c rest)
    have hrest : pySplit sep rest = [rest] := ih (fun x hx => h x (List.mem_cons_of_mem c hx))
    simp [pySplit, if_neg hc, hrest]

theorem pyRstrip_append_sep (sep : Char) (xs : List Char) :
    pyRstrip sep (xs ++ [sep]) = pyRstrip sep xs := by
  simp [pyRstrip, List.dropWhile]

theorem pyRstrip_last_ne (sep c : Char) (xs : List Char) (h : c ≠ sep) :
    pyRstrip sep (xs ++ [c]) = xs ++ [c] := by
  simp [pyRstrip, List.dropWhile, h]

theorem pyNegIdx_two (xs : List α) (a b : α) : pyNegIdx (xs ++ [a, b]) 2 = some a := by
  simp [pyNegIdx]

theorem pyNegIdx_one (xs : List α) (a b : α) : pyNegIdx (xs ++ [a, b]) 1 = some b := by
  simp [pyNegIdx]

theorem digit_not_pyspace (c : Char) (h : c.isDigit = true) : isPySpace c = false := by
  simp only [Char.isDigit, decide_eq_true_eq] at h
  simp only [isPySpace, Bool.or_eq_false_iff]
  refine ⟨⟨⟨⟨⟨?_, ?_⟩, ?_⟩, ?_⟩, ?_⟩, ?_⟩ <;>
    · rw [beq_eq_false_iff_ne]
      intro hc
      subst hc
      revert h
      decide

theorem digit_ne_plus (c : Char) (h : c.isDigit = true) : c ≠ '+' := by
  intro hc; subst hc; revert h; decide

theorem digit_ne_minus (c : Char) (h : c.isDigit = true) : c ≠ '-' := by
  intro hc; subst hc; revert h; decide

theorem digit_ne_underscore (c : Char) (h : c.isDigit = true) : c ≠ '_' := by
  intro hc; subst hc; revert h; decide

theorem parseDigitsUAux_digits (ds : List Char) :
    ∀ acc, (∀ c ∈ ds, c.isDigit = true) →
    parseDigitsUAux acc ds = some (ds.foldl (fun a c => a * 10 + digitVal c) acc) := by
  induction ds with
  | nil => intro acc _; simp [parseDigitsUAux]
  | cons c rest ih =>
    intro acc h
    have hc : c.isDigit = true := h c (List.mem_cons_self c rest)
    have hrest : ∀ x ∈ rest, x.isDigit = true := fun x hx => h x (List.mem_cons_of_mem c hx)
    rw [parseDigitsUAux.eq_def]
    simp only [if_neg (digit_ne_underscore c hc), if_pos hc, List.foldl_cons]
    exact ih (acc * 10 + digitVal c) hrest

theorem stripPyWs_digits (ds : List Char) (hne : ds ≠ [])
    (h : ∀ c ∈ ds, c.isDigit = true) : stripPyWs ds = ds := by
  have hdrop : ∀ xs : List Char, (∀ c ∈ xs, c.isDigit = true) → xs.dropWhile isPySpace = xs := by
    intro xs hxs
    cases xs with
    | nil => rfl
    | cons a t =>
      rw [List.dropWhile_cons_of_neg]
      simp [digit_not_pyspace a (hxs a (List.mem_cons_self a t))]
  have h1 : ds.dropWhile isPySpace = ds := hdrop ds h
  have h2 : ds.reverse.dropWhile isPySpace = ds.reverse := by
    apply hdrop
    intro c hc
    exact h c (List.mem_reverse.mp hc)
  simp [stripPyWs, h1, h2]

theorem pyInt_digits (ds : List Char) (hne : ds ≠ [])
    (h : ∀ c ∈ ds, c.isDigit = true) : pyInt ds = some ((digitsToNat ds : Nat) : Int) := by
  rw [pyInt.eq_def, stripPyWs_digits ds hne h]
  cases ds with
  | nil => exact absurd rfl hne
  | cons c rest =>
    have hc : c.isDigit = true := h c (List.mem_cons_self c rest)
    have hrest : ∀ x ∈ rest, x.isDigit = true := fun x hx => h x (List.mem_cons_of_mem c hx)
    simp only [if_neg (digit_ne_plus c hc), if_neg (digit_ne_minus c hc)]
    rw [parseDigitsU.eq_def]
    simp only [if_pos hc, parseDigitsUAux_digits rest (digitVal c) hrest]
    simp [digitsToNat]

theorem pySplitOnce_no_sep_append (sep : Char) (f v : List Char)
    (h : ∀ c ∈ f, c ≠ sep) : pySplitOnce sep (f ++ sep :: v) = (f, v) := by
  induction f with
  | nil => simp [pySplitOnce]
  | cons c rest ih =>
    have hc : c ≠ sep := h c (List.mem_cons_self c rest)
    have hrest : pySplitOnce sep (rest ++ sep :: v) = (rest, v) :=
      ih (fun x hx => h x (List.mem_cons_of_mem c hx))
    simp [pySplitOnce, if_neg hc, hrest]

theorem contains_append_self (sep : Char) (f v : List Char) :
    (f ++ sep :: v).contains sep = true := by
  induction f with
  | nil => simp [List.contains]
  | cons c rest ih => simpa [List.contains] using Or.inr ih

/-! ## Helper lemmas about the embedded operations -/

theorem fallback_build_ctx (env : TriggerEnv) (cx : JenkinsContext) (jn : List Char)
    (info : JobInfo) (evs : List NetEvent) : (fallback_build env cx jn info evs).ctx = cx := by
  unfold fallback_build
  cases env.build_job <;> rfl

theorem trigger_build_ctx (env : TriggerEnv) (cx : JenkinsContext)
    (jn p : PyVal) : (trigger_build env cx jn p).ctx = cx := by
  unfold trigger_build
  cases jn <;> simp only []
  case vstr s =>
    split
    · rfl
    · split
      · rfl
      · rfl
      · split
        · split
          · exact fallback_build_ctx ..
          · split
            · exact fallback_build_ctx ..
            · split
              · exact fallback_build_ctx ..
              · rfl
        · exact fallback_build_ctx ..

theorem make_jenkins_request_no_retry (send : Nat → ReqResult) (fetch : Option StrDict)
    (k : Nat) (crumb : Option StrDict) :
    make_jenkins_request send fetch k crumb false =
      match send k with
      | ReqResult.exn => (Except.error (), [crumb])
      | ReqResult.ok r => (Except.ok r, [crumb]) := by
  rw [make_jenkins_request.eq_def]
  cases send k with
  | exn => rfl
  | ok r => simp

theorem make_jenkins_request_sends_le_two (send : Nat → ReqResult) (fetch : Option StrDict)
    (k : Nat) (crumb : Option StrDict) (retry : Bool) :
    (make_jenkins_request send fetch k crumb retry).2.length ≤ 2 := by
  cases retry with
  | false =>
    rw [make_jenkins_request_no_retry]
    cases send k <;> simp
  | true =>
    rw [make_jenkins_request.eq_def]
    cases send k with
    | exn => simp
    | ok r =>
      simp only []
      split
      · cases fetch with
        | none => simp
        | some c =>
          simp only [make_jenkins_request_no_retry]
          cases send (k + 1) <;> simp
      · simp

/-! ## Claim theorems -/

/-- C10: every trigger_build call leaves the Session Context unchanged: for
every oracle and every outcome (success, fallback or error) the crumb_data
and session_cookies of the context after the call equal their values before
the call; the tool-facing trigger operation performs no crumb refresh or
write-back. -/
theorem C10_context_unchanged (env : TriggerEnv) (cx : JenkinsContext) (jn p : PyVal) :
    (trigger_build env cx jn p).ctx = cx :=
  trigger_build_ctx env cx jn p

/-- C7: get_jenkins_crumb never raises (it is total) and returns the
no-crumb outcome (none, none) on a network exception, a non-200 status, or
a body without the ":" separator; on a 200 response with body
"field:value" (no ":" in the field) it returns the crumb dict
mapping the field name to the value, together with the cookies set during
the exchange. -/
theorem C7_get_jenkins_crumb_behaviour :
    (get_jenkins_crumb NetResult.exn = (none, none))
    ∧ (∀ s t ck, s ≠ 200 → get_jenkins_crumb (NetResult.resp s t ck) = (none, none))
    ∧ (∀ t ck, t.contains ':' = false →
        get_jenkins_crumb (NetResult.resp 200 t ck) = (none, none))
    ∧ (∀ f v ck, (∀ c ∈ f, c ≠ ':') →
        get_jenkins_crumb (NetResult.resp 200 (f ++ ':' :: v) ck)
          = (some [(f, v)], some ck)) := by
  refine ⟨rfl, ?_, ?_, ?_⟩
  · intro s t ck hs
    simp [get_jenkins_crumb, hs]
  · intro t ck ht
    have ht2 : ':' ∉ t := by simpa using ht
    simp [get_jenkins_crumb, ht, ht2]
  · intro f v ck hf
    simp [get_jenkins_crumb, contains_append_self ':' f v,
      pySplitOnce_no_sep_append ':' f v hf]

/-- C7 witness: the behaviour at concrete inputs, through the theorem. -/
theorem C7_witness :
    get_jenkins_crumb (NetResult.resp 404 [] []) = (none, none)
    ∧ get_jenkins_crumb (NetResult.resp 200 ("nope".toList) []) = (none, none)
    ∧ get_jenkins_crumb
        (NetResult.resp 200 ("Jenkins-Crumb".toList ++ ':' :: "abc123".toList)
          [("JSESSIONID".toList, "sid".toList)])
      = (some [("Jenkins-Crumb".toList, "abc123".toList)],
         some [("JSESSIONID".toList, "sid".toList)]) :=
  ⟨C7_get_jenkins_crumb_behaviour.2.1 404 [] [] (by decide),
   C7_get_jenkins_crumb_behaviour.2.2.1 ("nope".toList) [] (by decide),
   C7_get_jenkins_crumb_behaviour.2.2.2 ("Jenkins-Crumb".toList) ("abc123".toList)
     [("JSESSIONID".toList, "sid".toList)] (by decide)⟩

/-- C5: a session started with useToken == true performs zero calls to the
crumb-issuer endpoint, its crumb_data and session_cookies are none, and
they stay none across every trigger_build call for the session lifetime. -/
theorem C5_token_session_no_crumb (net : NetResult) :
    (jenkins_lifespan true net).2 = 0
    ∧ (jenkins_lifespan true net).1.crumb_data = none
    ∧ (jenkins_lifespan true net).1.session_cookies = none
    ∧ ∀ (env : TriggerEnv) (jn p : PyVal),
        ((trigger_build env (jenkins_lifespan true net).1 jn p).ctx).crumb_data = none
        ∧ ((trigger_build env (jenkins_lifespan true net).1 jn p).ctx).session_cookies = none := by
  refine ⟨rfl, rfl, rfl, ?_⟩
  intro env jn p
  rw [trigger_build_ctx]
  exact ⟨rfl, rfl⟩

/-- C6: in a crumb-based session (crumb dict and cookie dict both truthy),
when the preferred path's POST returns HTTP 500 or raises a transport
error, trigger_build falls back to the simple client and still returns a
BuildTriggerResult of the same shape, with build_number equal to the
nextBuildNumber captured from job info and queue_id equal to the fallback
client's return value. -/
theorem C6_fallback_on_500_keeps_shape (env : TriggerEnv) (cx : JenkinsContext)
    (s : List Char) (p : PyVal) (info : JobInfo) (q : Int)
    (hc : pyTruthyDict cx.crumb_data = true)
    (hk : pyTruthyDict cx.session_cookies = true)
    (hp : (is_vnone p || is_dict p) = true)
    (hj : env.get_job_info = Except.ok (some info))
    (hpost : env.postResp = ReqResult.exn
      ∨ ∃ r, env.postResp = ReqResult.ok r ∧ r.status = 500)
    (hb : env.build_job = Except.ok q) :
    (trigger_build env cx (PyVal.vstr s) p).result
      = Except.ok { status := "triggered".toList, job_name := s, queue_id := some q,
                    build_number := info.nextBuildNumber, job_url := info.url,
                    build_url := info.url ++ natChars info.nextBuildNumber ++ ['/'] }
    ∧ (trigger_build env cx (PyVal.vstr s) p).events
      = [NetEvent.jobLookup, NetEvent.post (pyTruthy p), NetEvent.buildJob] := by
  have hval : (!is_vnone p && !is_dict p) = false := by
    cases hv : is_vnone p <;> cases hd : is_dict p <;> simp_all
  unfold trigger_build
  rw [hj]
  simp only [hval, Bool.false_eq_true, if_false, hc, hk, Bool.and_self]
  rcases hpost with hexn | ⟨r, hr, h500⟩
  · rw [hexn]
    unfold fallback_build
    rw [hb]
    exact ⟨rfl, rfl⟩
  · rw [hr]
    have h20 : ¬ (r.status = 200 ∨ r.status = 201) := by
      rw [h500]; decide
    simp only [if_true]
    rw [if_pos h20]
    unfold fallback_build
    rw [hb]
    exact ⟨rfl, rfl⟩

/-- C6 witness: concrete 500 response with crumb and cookies present. -/
theorem C6_witness :
    (trigger_build
        ⟨Except.ok (some ⟨"http://h/job/test-job/".toList, 42⟩),
         ReqResult.ok ⟨500, [], none⟩, Except.ok 123⟩
        ⟨some [("Jenkins-Crumb".toList, "v".toList)],
         some [("JSESSIONID".toList, "sid".toList)]⟩
        (PyVal.vstr ("test-job".toList)) PyVal.vnone).result
      = Except.ok { status := "triggered".toList, job_name := "test-job".toList,
                    queue_id := some 123, build_number := 42,
                    job_url := "http://h/job/test-job/".toList,
                    build_url := "http://h/job/test-job/".toList ++ natChars 42 ++ ['/'] } :=
  (C6_fallback_on_500_keeps_shape _ _ _ _ _ _ (by decide) (by decide) (by decide) rfl
    (Or.inr ⟨⟨500, [], none⟩, rfl, rfl⟩) rfl).1

/-- C9: trigger_build takes the preferred crumb-carrying path only when
both the crumb dict and the cookie dict are truthy (present and
non-empty): whenever either is none or empty, no preferred-path POST is
ever issued, and any call that passes validation and job lookup goes
through the fallback simple-client path. -/
theorem C9_preferred_path_requires_truthy_crumb_and_cookies
    (env : TriggerEnv) (cx : JenkinsContext) (jn p : PyVal)
    (h : pyTruthyDict cx.crumb_data = false ∨ pyTruthyDict cx.session_cookies = false) :
    (∀ b, NetEvent.post b ∉ (trigger_build env cx jn p).events)
    ∧ (∀ info s, env.get_job_info = Except.ok (some info) → jn = PyVal.vstr s →
        (is_vnone p || is_dict p) = true →
        NetEvent.buildJob ∈ (trigger_build env cx jn p).events) := by
  have hcc : (pyTruthyDict cx.crumb_data && pyTruthyDict cx.session_cookies) = false := by
    rcases h with h | h <;> simp [h]
  constructor
  · intro b
    unfold trigger_build
    cases jn <;> simp only []
    case vstr s =>
      split
      · simp
      · rw [hcc]
        cases env.get_job_info with
        | error e => simp
        | ok oinfo =>
          cases oinfo with
          | none => simp
          | some info =>
            simp only [Bool.false_eq_true, if_false]
            unfold fallback_build
            cases env.build_job <;> simp
    all_goals simp
  · intro info s hj hjn hp
    subst hjn
    have hval : (!is_vnone p && !is_dict p) = false := by
      cases hv : is_vnone p <;> cases hd : is_dict p <;> simp_all
    unfold trigger_build
    rw [hj]
    simp only [hval, Bool.false_eq_true, if_false, hcc]
    unfold fallback_build
    cases env.build_job <;> simp

/-- C9 witness: a successfully fetched crumb with an empty cookie dict
forces the fallback path. -/
theorem C9_witness :
    (∀ b, NetEvent.post b ∉
      (trigger_build ⟨Except.ok (some ⟨"u/".toList, 3⟩), ReqResult.exn, Except.ok 5⟩
        ⟨some [("Jenkins-Crumb".toList, "v".toList)], some []⟩
        (PyVal.vstr ("job-x".toList)) PyVal.vnone).events)
    ∧ NetEvent.buildJob ∈
      (trigger_build ⟨Except.ok (some ⟨"u/".toList, 3⟩), ReqResult.exn, Except.ok 5⟩
        ⟨some [("Jenkins-Crumb".toList, "v".toList)], some []⟩
        (PyVal.vstr ("job-x".toList)) PyVal.vnone).events :=
by
  refine ⟨(C9_preferred_path_requires_truthy_crumb_and_cookies _ _ _ _ (Or.inr ?_)).1,
    (C9_preferred_path_requires_truthy_crumb_and_cookies _ _ _ _ (Or.inr ?_)).2
      ⟨"u/".toList, 3⟩ ("job-x".toList) rfl rfl rfl⟩ <;> rfl

/-- C1 counterexample: with crumb and cookies present, a 302 response
(carrying a perfectly good queue Location) is NOT treated as success on the
preferred path: the internal raise is caught and trigger_build falls back
to the simple client, whose queue id (99) replaces the one in the Location
header (55). -/
theorem C1_counterexample_302 :
    (trigger_build
        ⟨Except.ok (some ⟨"u/".toList, 7⟩),
         ReqResult.ok ⟨302, [], some ("http://h/queue/item/55/".toList)⟩,
         Except.ok 99⟩
        ⟨some [("Jenkins-Crumb".toList, "v".toList)],
         some [("JSESSIONID".toList, "s".toList)]⟩
        (PyVal.vstr ("j".toList)) PyVal.vnone).events
      = [NetEvent.jobLookup, NetEvent.post false, NetEvent.buildJob]
    ∧ (trigger_build
        ⟨Except.ok (some ⟨"u/".toList, 7⟩),
         ReqResult.ok ⟨302, [], some ("http://h/queue/item/55/".toList)⟩,
         Except.ok 99⟩
        ⟨some [("Jenkins-Crumb".toList, "v".toList)],
         some [("JSESSIONID".toList, "s".toList)]⟩
        (PyVal.vstr ("j".toList)) PyVal.vnone).result
      = Except.ok (mk_build_result ("j".toList) (some 99) ⟨"u/".toList, 7⟩) := by
  constructor <;> rfl

/-- C1 amended: on the preferred path (crumb and cookies truthy) only
statuses 200 and 201 are treated as success — the function then returns
the preferred-path result (when the Location parsing does not raise) —
while a 302 response makes the preferred path fail and triggers the
fallback to the simple client. -/
theorem C1_amended_success_statuses (env : TriggerEnv) (cx : JenkinsContext)
    (s : List Char) (p : PyVal) (info : JobInfo) (r : HttpResp)
    (hc : pyTruthyDict cx.crumb_data = true)
    (hk : pyTruthyDict cx.session_cookies = true)
    (hp : (is_vnone p || is_dict p) = true)
    (hj : env.get_job_info = Except.ok (some info))
    (hr : env.postResp = ReqResult.ok r) :
    ((r.status = 200 ∨ r.status = 201) →
      ∀ q, queueIdFromLocation r.location = Except.ok q →
      trigger_build env cx (PyVal.vstr s) p
        = { result := Except.ok (mk_build_result s q info),
            events := [NetEvent.jobLookup, NetEvent.post (pyTruthy p)], ctx := cx })
    ∧ (r.status = 302 →
        (trigger_build env cx (PyVal.vstr s) p).events
          = [NetEvent.jobLookup, NetEvent.post (pyTruthy p), NetEvent.buildJob]) := by
  have hval : (!is_vnone p && !is_dict p) = false := by
    cases hv : is_vnone p <;> cases hd : is_dict p <;> simp_all
  constructor
  · intro hok q hq
    unfold trigger_build
    rw [hj]
    simp only [hval, Bool.false_eq_true, if_false, hc, hk, Bool.and_self, hr, if_true]
    rw [if_neg (not_not_intro hok), hq]
  · intro h302
    unfold trigger_build
    rw [hj]
    simp only [hval, Bool.false_eq_true, if_false, hc, hk, Bool.and_self, hr, if_true]
    rw [if_pos (by rw [h302]; decide)]
    unfold fallback_build
    cases env.build_job <;> rfl

/-- C1 witness: a 201 with a queue Location is returned from the preferred
path, and a 302 falls back, both through the amended theorem. -/
theorem C1_witness :
    (trigger_build
        ⟨Except.ok (some ⟨"u/".toList, 7⟩),
         ReqResult.ok ⟨201, [], some ("http://h/queue/item/55/".toList)⟩,
         Except.ok 99⟩
        ⟨some [("Jenkins-Crumb".toList, "v".toList)],
         some [("JSESSIONID".toList, "s".toList)]⟩
        (PyVal.vstr ("j".toList)) PyVal.vnone)
      = { result := Except.ok (mk_build_result ("j".toList) (some 55) ⟨"u/".toList, 7⟩),
          events := [NetEvent.jobLookup, NetEvent.post false],
          ctx := ⟨some [("Jenkins-Crumb".toList, "v".toList)],
                  some [("JSESSIONID".toList, "s".toList)]⟩ }
    ∧ (trigger_build
        ⟨Except.ok (some ⟨"u/".toList, 7⟩),
         ReqResult.ok ⟨302, [], none⟩, Except.ok 99⟩
        ⟨some [("Jenkins-Crumb".toList, "v".toList)],
         some [("JSESSIONID".toList, "s".toList)]⟩
        (PyVal.vstr ("j2".toList)) PyVal.vnone).events
      = [NetEvent.jobLookup, NetEvent.post false, NetEvent.buildJob] := by
  refine ⟨(C1_amended_success_statuses
      ⟨Except.ok (some ⟨"u/".toList, 7⟩),
       ReqResult.ok ⟨201, [], some ("http://h/queue/item/55/".toList)⟩, Except.ok 99⟩
      ⟨some [("Jenkins-Crumb".toList, "v".toList)],
       some [("JSESSIONID".toList, "s".toList)]⟩
      ("j".toList) PyVal.vnone ⟨"u/".toList, 7⟩
      ⟨201, [], some ("http://h/queue/item/55/".toList)⟩
      rfl rfl rfl rfl rfl).1 (Or.inr rfl) (some 55) ?_,
    (C1_amended_success_statuses
      ⟨Except.ok (some ⟨"u/".toList, 7⟩), ReqResult.ok ⟨302, [], none⟩, Except.ok 99⟩
      ⟨some [("Jenkins-Crumb".toList, "v".toList)],
       some [("JSESSIONID".toList, "s".toList)]⟩
      ("j2".toList) PyVal.vnone ⟨"u/".toList, 7⟩ ⟨302, [], none⟩
      rfl rfl rfl rfl rfl).2 rfl⟩
  decide

/-- C4 counterexample: an empty job name is a string, so it passes the
isinstance validation and the job lookup network call is performed —
trigger_build does not fail fast on an empty (hence not non-empty)
jobName. -/
theorem C4_counterexample_empty_jobname :
    (trigger_build ⟨Except.error (), ReqResult.exn, Except.error ()⟩
        ⟨none, none⟩ (PyVal.vstr []) PyVal.vnone).events
      = [NetEvent.jobLookup] := by
  rfl

/-- C4 amended: trigger_build fails fast with a ValueError before any
network call exactly when jobName is not a string (of any content,
the empty string included among the accepted ones) or parameters is
neither None nor a dict (regardless of its value types). -/
theorem C4_amended_validation (env : TriggerEnv) (cx : JenkinsContext) (jn p : PyVal)
    (h : is_str jn = false ∨ (is_vnone p = false ∧ is_dict p = false)) :
    trigger_build env cx jn p
      = { result := Except.error PyErr.valueError, events := [], ctx := cx } := by
  unfold trigger_build
  cases jn with
  | vstr s =>
    rcases h with h | ⟨h1, h2⟩
    · exact absurd h (by simp [is_str])
    · simp [h1, h2]
  | vint n => rfl
  | vnone => rfl
  | vdict d => rfl

/-- C4 witness: an integer jobName fails fast with no network call, via the
amended theorem. -/
theorem C4_witness :
    trigger_build ⟨Except.ok (some ⟨"u/".toList, 7⟩), ReqResult.exn, Except.ok 1⟩
        ⟨none, none⟩ (PyVal.vint 3) (PyVal.vstr ("x".toList))
      = { result := Except.error PyErr.valueError, events := [],
          ctx := ⟨none, none⟩ } :=
  C4_amended_validation ⟨Except.ok (some ⟨"u/".toList, 7⟩), ReqResult.exn, Except.ok 1⟩
    ⟨none, none⟩ (PyVal.vint 3) (PyVal.vstr ("x".toList)) (Or.inl rfl)

/-- C2 counterexample: a 403 first response whose body carries the
crumb-rejection marker, on the first attempt, is NOT retried when the
fresh-crumb fetch fails: the request is sent exactly once and the 403 is
returned, contradicting the unconditional "retries exactly once". -/
theorem C2_counterexample_failed_refresh :
    make_jenkins_request
        (fun _ => ReqResult.ok ⟨403, "No valid crumb was included in the request".toList, none⟩)
        none 0 none true
      = (Except.ok ⟨403, "No valid crumb was included in the request".toList, none⟩, [none])
    ∧ crumbMarker ("No valid crumb was included in the request".toList) = true := by
  constructor
  · rw [make_jenkins_request.eq_def]
    decide
  · decide

/-- C2 amended: on a 403 with a crumb-rejection marker on the first
attempt, the executor fetches a fresh crumb and, when that fetch succeeds,
retries the same request exactly once with the new crumb; the response of
the retried request — a second 403 included — is returned to the caller
unmodified, and no request is ever sent more than twice. -/
theorem C2_amended_retry_once (send : Nat → ReqResult) (fetch : Option StrDict)
    (crumb : Option StrDict) (r r2 : HttpResp) (c : StrDict)
    (h0 : send 0 = ReqResult.ok r) (h403 : r.status = 403)
    (hm : crumbMarker r.body = true) (hf : fetch = some c)
    (h1 : send 1 = ReqResult.ok r2) :
    make_jenkins_request send fetch 0 crumb true = (Except.ok r2, [crumb, some c])
    ∧ ∀ (send2 : Nat → ReqResult) (fetch2 : Option StrDict) (k : Nat)
        (crumb2 : Option StrDict) (retry2 : Bool),
        ((make_jenkins_request send2 fetch2 k crumb2 retry2).2).length ≤ 2 := by
  constructor
  · rw [make_jenkins_request.eq_def, h0]
    simp only [hf, make_jenkins_request_no_retry, h1]
    split
    · rfl
    · simp_all
  · exact make_jenkins_request_sends_le_two

/-- C2 witness: a concrete 403-with-marker exchange where the crumb fetch
succeeds: the request is retried once with the new crumb and the second
403 is returned unmodified. -/
theorem C2_witness :
    make_jenkins_request
        (fun _ => ReqResult.ok ⟨403, "No valid crumb".toList, none⟩)
        (some [("Jenkins-Crumb".toList, "fresh".toList)]) 0 none true
      = (Except.ok ⟨403, "No valid crumb".toList, none⟩,
         [none, some [("Jenkins-Crumb".toList, "fresh".toList)]]) :=
  (C2_amended_retry_once
    (fun _ => ReqResult.ok ⟨403, "No valid crumb".toList, none⟩)
    (some [("Jenkins-Crumb".toList, "fresh".toList)]) none
    ⟨403, "No valid crumb".toList, none⟩ ⟨403, "No valid crumb".toList, none⟩
    [("Jenkins-Crumb".toList, "fresh".toList)]
    rfl rfl (by decide) rfl rfl).1

/-- C8 counterexample: a 403 body containing the crumb-rejection phrase in
upper case ("NO VALID CRUMB") does not trigger the refresh-and-retry even
though a fresh crumb would be available: the request is sent once and the
403 returned. The lowercased body does contain the lowercased marker, so
the case-insensitive reading of the claim applies to this input. -/
theorem C8_counterexample_uppercase :
    make_jenkins_request (fun _ => ReqResult.ok ⟨403, "NO VALID CRUMB".toList, none⟩)
        (some [("Jenkins-Crumb".toList, "f".toList)]) 0 none true
      = (Except.ok ⟨403, "NO VALID CRUMB".toList, none⟩, [none])
    ∧ strHas (noValidCrumbChars.map Char.toLower)
        (("NO VALID CRUMB".toList).map Char.toLower) = true := by
  constructor
  · rw [make_jenkins_request.eq_def]
    decide
  · decide

/-- C8 amended: the crumb-rejection detection is case-sensitive: a 403
response body containing the exact substring "No valid crumb" or
"Invalid crumb" triggers the crumb refresh on the first attempt, and when
the refresh succeeds the request is retried exactly once with the new
crumb. -/
theorem C8_amended_case_sensitive_markers (send : Nat → ReqResult)
    (fetch : Option StrDict) (crumb : Option StrDict) (r : HttpResp) (c : StrDict)
    (h0 : send 0 = ReqResult.ok r) (h403 : r.status = 403)
    (hm : strHas noValidCrumbChars r.body = true ∨ strHas invalidCrumbChars r.body = true)
    (hf : fetch = some c) :
    (make_jenkins_request send fetch 0 crumb true).2 = [crumb, some c] := by
  have hmark : crumbMarker r.body = true := by
    unfold crumbMarker
    rcases hm with hm | hm <;> simp [hm]
  rw [make_jenkins_request.eq_def, h0]
  simp only [hf, make_jenkins_request_no_retry]
  split
  · cases send 1 <;> rfl
  · simp_all

/-- C8 witness: a concrete 403 whose body contains "Invalid crumb" exactly
is retried once with the freshly fetched crumb. -/
theorem C8_witness :
    (make_jenkins_request
        (fun _ => ReqResult.ok ⟨403, "Invalid crumb detected".toList, none⟩)
        (some [("G".toList, "w".toList)]) 0 none true).2
      = [none, some [("G".toList, "w".toList)]] :=
  C8_amended_case_sensitive_markers
    (fun _ => ReqResult.ok ⟨403, "Invalid crumb detected".toList, none⟩)
    (some [("G".toList, "w".toList)]) none
    ⟨403, "Invalid crumb detected".toList, none⟩ [("G".toList, "w".toList)]
    rfl rfl (Or.inr (by decide)) rfl

theorem digit_ne_slash (c : Char) (h : c.isDigit = true) : c ≠ '/' := by
  intro hc; subst hc; revert h; decide

theorem pyRstrip_append_digits (xs ds : List Char) (hne : ds ≠ [])
    (hd : ∀ c ∈ ds, c.isDigit = true) : pyRstrip '/' (xs ++ ds) = xs ++ ds := by
  have h1 : ds.dropLast ++ [ds.getLast hne] = ds := List.dropLast_append_getLast hne
  have hlast : ds.getLast hne ≠ '/' :=
    digit_ne_slash _ (hd _ (List.getLast_mem hne))
  calc pyRstrip '/' (xs ++ ds)
      = pyRstrip '/' ((xs ++ ds.dropLast) ++ [ds.getLast hne]) := by
        rw [List.append_assoc, h1]
    _ = (xs ++ ds.dropLast) ++ [ds.getLast hne] := pyRstrip_last_ne '/' _ _ hlast
    _ = xs ++ ds := by rw [List.append_assoc, h1]

theorem item_digits_parts (pre ds : List Char) (hne : ds ≠ [])
    (hd : ∀ c ∈ ds, c.isDigit = true) :
    pySplit '/' (pyRstrip '/' (pre ++ '/' :: (itemChars ++ '/' :: (ds ++ ['/']))))
      = pySplit '/' pre ++ [itemChars, ds] := by
  have hshape : pre ++ '/' :: (itemChars ++ '/' :: (ds ++ ['/']))
      = (pre ++ '/' :: (itemChars ++ '/' :: ds)) ++ ['/'] := by simp
  have hshape2 : pre ++ '/' :: (itemChars ++ '/' :: ds)
      = (pre ++ '/' :: (itemChars ++ ['/'])) ++ ds := by simp
  have hstrip : pyRstrip '/' (pre ++ '/' :: (itemChars ++ '/' :: ds))
      = pre ++ '/' :: (itemChars ++ '/' :: ds) := by
    rw [hshape2]
    exact pyRstrip_append_digits _ ds hne hd
  rw [hshape, pyRstrip_append_sep, hstrip]
  rw [pySplit_append_sep, pySplit_append_sep]
  rw [pySplit_no_sep '/' itemChars (by decide)]
  rw [pySplit_no_sep '/' ds (fun c hc => digit_ne_slash c (hd c hc))]
  simp

/-- C3 counterexample: a Location header with no "/" at all ("12345")
makes the extraction raise an IndexError (queue_parts[-2] on a
single-element list) instead of yielding queueId == None; inside
trigger_build the exception aborts the preferred path, so the call falls
back and re-POSTs through the simple client, returning its queue id (99),
not None. -/
theorem C3_counterexample_no_slash :
    extract_queue_id ("12345".toList) = Except.error PyErr.indexError
    ∧ (trigger_build
        ⟨Except.ok (some ⟨"u/".toList, 7⟩),
         ReqResult.ok ⟨201, [], some ("12345".toList)⟩, Except.ok 99⟩
        ⟨some [("c".toList, "v".toList)], some [("k".toList, "s".toList)]⟩
        (PyVal.vstr ("j".toList)) PyVal.vnone).events
      = [NetEvent.jobLookup, NetEvent.post false, NetEvent.buildJob]
    ∧ (trigger_build
        ⟨Except.ok (some ⟨"u/".toList, 7⟩),
         ReqResult.ok ⟨201, [], some ("12345".toList)⟩, Except.ok 99⟩
        ⟨some [("c".toList, "v".toList)], some [("k".toList, "s".toList)]⟩
        (PyVal.vstr ("j".toList)) PyVal.vnone).result
      = Except.ok (mk_build_result ("j".toList) (some 99) ⟨"u/".toList, 7⟩) := by
  refine ⟨by decide, rfl, rfl⟩

/-- C3 amended: the queue-id extraction never raises on headers whose
stripped form still has at least one "/" (at least two segments): it
yields the parsed integer when the second-to-last segment is "item" and
the last segment parses as an int — in particular the value of the digits
for every header ending in "/item/(digits)/" — and None when the
second-to-last segment differs from "item" or the int parse fails; but a
header whose stripped form is a single segment (no "/" at all) raises an
IndexError instead of yielding None. -/
theorem C3_amended_queue_extraction :
    (∀ pre ds, ds ≠ [] → (∀ c ∈ ds, c.isDigit = true) →
      extract_queue_id (pre ++ '/' :: (itemChars ++ '/' :: (ds ++ ['/'])))
        = Except.ok (some ((digitsToNat ds : Nat) : Int)))
    ∧ (∀ loc, (pySplit '/' (pyRstrip '/' loc)).length = 1 →
        extract_queue_id loc = Except.error PyErr.indexError)
    ∧ (∀ loc seg2 seg1,
        pyNegIdx (pySplit '/' (pyRstrip '/' loc)) 2 = some seg2 →
        pyNegIdx (pySplit '/' (pyRstrip '/' loc)) 1 = some seg1 →
        (seg2 ≠ itemChars ∨ pyInt seg1 = none) →
        extract_queue_id loc = Except.ok none) := by
  refine ⟨?_, ?_, ?_⟩
  · intro pre ds hne hd
    unfold extract_queue_id
    rw [item_digits_parts pre ds hne hd]
    have hemp : (pySplit '/' pre ++ [itemChars, ds]).isEmpty = false := by
      cases pySplit '/' pre <;> rfl
    simp only [hemp, Bool.false_eq_true, if_false, pyNegIdx_two, pyNegIdx_one,
      eq_self_iff_true, if_true, pyInt_digits ds hne hd]
  · intro loc hlen
    obtain ⟨x, hx⟩ : ∃ x, pySplit '/' (pyRstrip '/' loc) = [x] := by
      cases hp : pySplit '/' (pyRstrip '/' loc) with
      | nil => rw [hp] at hlen; simp at hlen
      | cons a t =>
        rw [hp] at hlen
        simp only [List.length_cons, Nat.add_left_eq_self, List.length_eq_zero] at hlen
        exact ⟨a, by rw [hlen]⟩
    unfold extract_queue_id
    rw [hx]
    simp [pyNegIdx]
  · intro loc seg2 seg1 h2 h1 hor
    unfold extract_queue_id
    have hemp : (pySplit '/' (pyRstrip '/' loc)).isEmpty = false := by
      cases hp : pySplit '/' (pyRstrip '/' loc) with
      | nil => exact absurd hp (pySplit_ne_nil '/' (pyRstrip '/' loc))
      | cons a t => rfl
    simp only [hemp, Bool.false_eq_true, if_false, h2, h1]
    rcases hor with hor | hor
    · rw [if_neg hor]
    · by_cases hseg : seg2 = itemChars
      · rw [if_pos hseg, hor]
      · rw [if_neg hseg]

/-- C3 witness: concrete inputs for the three amended clauses, through the
theorem: a well-formed item Location yields its digits, a single-segment
header raises, a non-item header yields None. -/
theorem C3_witness :
    extract_queue_id
        ("http://h/queue".toList ++ '/' :: (itemChars ++ '/' :: ("123".toList ++ ['/'])))
      = Except.ok (some ((digitsToNat ("123".toList) : Nat) : Int))
    ∧ extract_queue_id ("xyz".toList) = Except.error PyErr.indexError
    ∧ extract_queue_id ("a/b/".toList) = Except.ok none := by
  refine ⟨C3_amended_queue_extraction.1 ("http://h/queue".toList) ("123".toList)
      (by decide) (by decide),
    C3_amended_queue_extraction.2.1 ("xyz".toList) (by decide),
    C3_amended_queue_extraction.2.2 ("a/b/".toList) ("a".toList) ("b".toList)
      (by decide) (by decide) (Or.inl (by decide))⟩
